import Mathlib

/-!
Shallow embedding of the client-side orchestration layer of the
ai-memory-app repository: the conversation engine of
`src/client/src/ChatInterface.jsx`, the refresh scheduling of
`src/client/src/App.jsx`, and the graph fetch / rendering helpers of
`src/client/src/KnowledgeGraph.jsx` (with the later revision kept in
`src/unnamed/part_001`).
-/

namespace AiMemory

/-- Message role: the `type` field of a transcript message
(`'user'` or `'assistant'` in `ChatInterface.jsx`). -/
inductive Role where
  | user
  | assistant
deriving DecidableEq, Repr

/-- Action hint: `'add_fact'` or `'ask_question'`. -/
inductive Action where
  | add_fact
  | ask_question
deriving DecidableEq, Repr, BEq

/-- The `details` payload of a successful `/chat` response
(`{nodes_created, edges_created}`). -/
structure Details where
  nodes_created : Int
  edges_created : Int
deriving DecidableEq, Repr

/-- A transcript message as built in `ChatInterface.jsx`: fields that the
code leaves absent are modelled with their JS-falsy defaults
(`isStreaming`/`isError` absent ~ `false`, `action`/`details` absent ~ `none`). -/
structure Message where
  id : Nat
  type : Role
  content : String
  isStreaming : Bool := false
  isError : Bool := false
  action : Option Action := none
  details : Option Details := none
deriving DecidableEq, Repr

/-- One entry of the role-tagged history sent to the backend
(`messages.map(msg => ({role, content}))`, `ChatInterface.jsx` lines 79-82). -/
structure HistoryEntry where
  role : String
  content : String
deriving DecidableEq, Repr

/-- `history` construction: each prior message becomes
`{role: msg.type === 'user' ? 'user' : 'model', content: msg.content}`. -/
def toHistory (msgs : List Message) : List HistoryEntry :=
  msgs.map fun m => ⟨if m.type = Role.user then "user" else "model", m.content⟩

/-- Body of the `POST /chat` request issued by `handleSend`. -/
structure RequestPayload where
  message : String
  action_type : Action
  history : List HistoryEntry
  session_id : String
deriving DecidableEq, Repr

/-- The information `handleSend`'s catch-branch reads off an axios error:
`error.response?.data?.detail` and `error.message`. -/
structure ErrorInfo where
  responseDetail : Option String
  message : String
deriving DecidableEq, Repr

/-- Outcome of the awaited `/chat` request: a success carries
`{action, response, details}`, a failure carries the axios error data. -/
inductive ChatResult where
  | success (action : Action) (response : String) (details : Option Details)
  | failure (err : ErrorInfo)
deriving DecidableEq, Repr

/-- Error text built in the catch-branch:
`` `Error: ${error.response?.data?.detail || error.message}` ``.
JS `||` falls through when the detail is absent or the empty string. -/
def errorText (err : ErrorInfo) : String :=
  "Error: " ++
    (match err.responseDetail with
     | some d => if d = "" then err.message else d
     | none => err.message)

/-- JS `String.prototype.trim()`: the string with leading and trailing
whitespace removed (executable translation used by the submit guard
`!input.trim()`). -/
def jsTrim (s : String) : String :=
  ⟨((s.data.dropWhile Char.isWhitespace).reverse.dropWhile Char.isWhitespace).reverse⟩

/-- The optimistic user message appended at the start of `handleSend`. -/
def userMessage (now : Nat) (text : String) : Message :=
  { id := now, type := Role.user, content := text }

/-- The draft assistant message created at the start of `typewriterEffect`
(`{id: Date.now(), type: 'assistant', content: '', isStreaming: true}`). -/
def tempMessage (now : Nat) : Message :=
  { id := now, type := Role.assistant, content := "", isStreaming := true }

/-- Finalization of the completed draft
(`{...completedMessage, isStreaming: false, action, details}`). -/
def finalizeMessage (temp : Message) (action : Action) (details : Option Details) :
    Message :=
  { temp with isStreaming := false, action := some action, details := details }

/-- The error message appended in the catch-branch. -/
def errorMessage (now : Nat) (err : ErrorInfo) : Message :=
  { id := now, type := Role.assistant, content := errorText err, isError := true }

/-- React component state of `ChatInterface`: `messages`, `input`,
`isLoading`, `streamingMessage`, `actionType`. -/
structure ChatState where
  messages : List Message
  input : String
  isLoading : Bool
  streamingMessage : Option Message
  actionType : Action
deriving DecidableEq, Repr

/-- A running `typewriterEffect` interval: the response text (as its list of
characters), the `action`/`details` captured by the completion callback,
the `index` counter and the mutable `tempMessage`. -/
structure ActiveTypewriter where
  text : List Char
  action : Action
  details : Option Details
  index : Nat
  temp : Message
deriving DecidableEq, Repr

/-- Whole-component state: the React state plus the implicit asynchronous
state (the in-flight `/chat` request, the running typewriter interval) and
the `sessionId` prop. -/
structure Conv where
  chat : ChatState
  inFlight : Option RequestPayload
  tw : Option ActiveTypewriter
  sessionId : String
deriving DecidableEq, Repr

/-- Externally observable side effects of one event-loop step: how many
`/chat` requests were issued and whether `onGraphUpdate` was called. -/
structure StepOut where
  requests : Nat := 0
  graphNotify : Bool := false
deriving DecidableEq, Repr

/-- Events of the single-threaded event loop: a submit (button click or
Enter), the resolution of the awaited request, one `setInterval` tick of
the typewriter. `override` models `handleSend`'s optional
`overrideActionType` argument (`null` at every call site). -/
inductive ConvEvent where
  | submit (now : Nat) (override : Option Action)
  | resolve (result : ChatResult) (now : Nat)
  | tick
deriving DecidableEq, Repr

/-- One step of the conversation engine, translated from
`handleSend` / `typewriterEffect` in `ChatInterface.jsx`:

* `submit`: `if (!input.trim() || isLoading) return;` then append the user
  message, clear the input, set `isLoading`, and issue one `POST /chat`
  whose history is built from the pre-append `messages`.
* `resolve` (success): `typewriterEffect` starts — the draft message is
  placed in `streamingMessage` — and the `finally` clears `isLoading`.
* `resolve` (failure): the error message is appended and `finally` clears
  `isLoading`.
* `tick`: while `index < text.length` one character is appended to the
  draft; otherwise the interval is cleared, `streamingMessage` is reset,
  and the callback appends the finalized message, calling `onGraphUpdate`
  exactly when `action === 'add_fact'`. -/
def convStep (c : Conv) (e : ConvEvent) : Conv × StepOut :=
  match e with
  | .submit now override =>
      if jsTrim c.chat.input = "" ∨ c.chat.isLoading then (c, {})
      else
        let payload : RequestPayload :=
          { message := c.chat.input
            action_type := override.getD c.chat.actionType
            history := toHistory c.chat.messages
            session_id := c.sessionId }
        ({ c with
            chat := { c.chat with
                        messages := c.chat.messages ++ [userMessage now c.chat.input]
                        input := ""
                        isLoading := true }
            inFlight := some payload },
         { requests := 1 })
  | .resolve result now =>
      match c.inFlight with
      | none => (c, {})
      | some _ =>
        match result with
        | .success action response details =>
            ({ c with
                chat := { c.chat with
                            streamingMessage := some (tempMessage now)
                            isLoading := false }
                inFlight := none
                tw := some ⟨response.data, action, details, 0, tempMessage now⟩ },
             {})
        | .failure err =>
            ({ c with
                chat := { c.chat with
                            messages := c.chat.messages ++ [errorMessage now err]
                            isLoading := false }
                inFlight := none },
             {})
  | .tick =>
      match c.tw with
      | none => (c, {})
      | some a =>
          if h : a.index < a.text.length then
            let temp' := { a.temp with
                             content := a.temp.content.push (a.text.get ⟨a.index, h⟩) }
            ({ c with
                chat := { c.chat with streamingMessage := some temp' }
                tw := some { a with index := a.index + 1, temp := temp' } },
             {})
          else
            ({ c with
                chat := { c.chat with
                            messages := c.chat.messages ++
                              [finalizeMessage a.temp a.action a.details]
                            streamingMessage := none }
                tw := none },
             { graphNotify := decide (a.action = Action.add_fact) })

/-- Iterate `n` typewriter interval ticks. -/
def convTicks (c : Conv) : Nat → Conv
  | 0 => c
  | n + 1 => (convStep (convTicks c n) ConvEvent.tick).1

/-- The fixed interval of the typewriter timer: `setInterval(..., 20)`. -/
def typewriterIntervalMs : Nat := 20

/-! ### Graph refresh scheduling (`App.jsx`) -/

/-- The fixed delay of `handleGraphUpdate`'s `setTimeout` in `App.jsx`. -/
def graphUpdateDelayMs : Nat := 500

/-- `refreshKey` as a function of time, for a `handleGraphUpdate` call made
at `scheduledAt` with the key then at `k0`: the `setTimeout` callback
`setRefreshKey(k => k + 1)` runs only once `graphUpdateDelayMs` has
elapsed; before that the key — and hence the fetch trigger — is unchanged. -/
def refreshKeyAt (k0 scheduledAt t : Nat) : Nat :=
  if t < scheduledAt + graphUpdateDelayMs then k0 else k0 + 1

/-! ### Graph fetching (`KnowledgeGraph.jsx`) -/

/-- A graph node as delivered by `GET /graph`. -/
structure GraphNode where
  id : String
  name : String
  group : String
  isGlobal : Bool
deriving DecidableEq, Repr

/-- A directed labeled link of the snapshot. -/
structure GraphLink where
  source : String
  target : String
  name : String
deriving DecidableEq, Repr

/-- The `graphData` state of `KnowledgeGraph`. -/
structure GraphData where
  nodes : List GraphNode
  links : List GraphLink
deriving DecidableEq, Repr

/-- The body of a `GET /graph` response; `none` models an absent (falsy)
field, so that `response.data.nodes && response.data.links` can fail. -/
structure GraphResponse where
  nodes : Option (List GraphNode)
  links : Option (List GraphLink)
deriving DecidableEq, Repr

/-- Outcome of the awaited `GET /graph` request. -/
inductive FetchResult where
  | ok (resp : GraphResponse)
  | err (message : String)
deriving DecidableEq, Repr

/-- `fetchGraph` from `KnowledgeGraph.jsx`: on success with both fields
present, `setGraphData(response.data)` replaces the snapshot wholesale; on
error, `console.error` only (second component is the console log). -/
def fetchGraph (snapshot : GraphData) (r : FetchResult) :
    GraphData × List String :=
  match r with
  | .ok resp =>
      match resp.nodes, resp.links with
      | some ns, some ls => (⟨ns, ls⟩, [])
      | some _, none => (snapshot, [])
      | none, _ => (snapshot, [])
  | .err m => (snapshot, ["Error fetching graph: " ++ m])

/-! ### Node painting (`KnowledgeGraph.jsx` `TYPE_COLORS` / `nodeCanvasObject`) -/

/-- The fixed six-entry palette `TYPE_COLORS`. -/
def TYPE_COLORS : List (String × String) :=
  [("Person", "#ff6b6b"), ("Project", "#4ecdc4"), ("Technology", "#45b7d1"),
   ("Company", "#a29bfe"), ("Location", "#55efc4"), ("Entity", "#95a5a6")]

/-- JS property lookup `TYPE_COLORS[group]` (absent property ~ `none`). -/
def lookupColor (group : String) : Option String :=
  (TYPE_COLORS.find? fun p => p.1 = group).map Prod.snd

/-- What `nodeCanvasObject` draws for one node, ignoring geometry: the fill
color, the halo stroke color and the halo line width (in pre-scale units). -/
structure NodePaint where
  fill : String
  haloColor : String
  haloWidth : Nat
deriving DecidableEq, Repr

/-- The painting decisions of `nodeCanvasObject`:
`TYPE_COLORS[node.group] || TYPE_COLORS.Entity` for the fill, and
`node.isGlobal ? '#ffd700' : '#2ecc71'` / `node.isGlobal ? 2 : 1` for the
halo. -/
def paintNode (group : String) (isGlobal : Bool) : NodePaint :=
  { fill := (lookupColor group).getD ((lookupColor "Entity").getD "")
    haloColor := if isGlobal then "#ffd700" else "#2ecc71"
    haloWidth := if isGlobal then 2 else 1 }

/-! ### Viewport dimensions

Two revisions of `KnowledgeGraph` exist in the repository. The revision at
`src/client/src/KnowledgeGraph.jsx` passes literal pixel dimensions to
`ForceGraph2D`; the later revision kept in `src/unnamed/part_001` measures
its container with `getBoundingClientRect` and re-measures through a
`ResizeObserver`. -/

/-- `width={800}` in `src/client/src/KnowledgeGraph.jsx`: the prop ignores
the container's width. -/
def kgWidthProp (_containerWidth : Nat) : Nat := 800

/-- `height={500}` in `src/client/src/KnowledgeGraph.jsx`: the prop ignores
the container's height. -/
def kgHeightProp (_containerHeight : Nat) : Nat := 500

/-- `updateDimensions` of the `src/unnamed/part_001` revision:
`setDimensions(containerRef.current.getBoundingClientRect())`. -/
def updateDimensions (rect : Nat × Nat) : Nat × Nat := rect

/-- The `dimensions` state after the mount-time `updateDimensions()` call
followed by one `ResizeObserver` callback per container resize. -/
def dimensionsAfterResizes (rect0 : Nat × Nat) (resizes : List (Nat × Nat)) :
    Nat × Nat :=
  resizes.foldl (fun _ r => updateDimensions r) (updateDimensions rect0)

/-- `width={dimensions.width}` in the `src/unnamed/part_001` revision. -/
def kg2WidthProp (dims : Nat × Nat) : Nat := dims.1

/-- `height={dimensions.height}` in the `src/unnamed/part_001` revision. -/
def kg2HeightProp (dims : Nat × Nat) : Nat := dims.2

/-! ### Keyboard submission (`handleKeyPress`) -/

/-- A keyboard event as read by `handleKeyPress`. -/
structure KeyEvent where
  key : String
  shiftKey : Bool
  ctrlKey : Bool
  altKey : Bool
  metaKey : Bool
deriving DecidableEq, Repr

/-- Whether any modifier key is held (the spec's "modifier"). -/
def hasModifier (e : KeyEvent) : Bool :=
  e.shiftKey || e.ctrlKey || e.altKey || e.metaKey

/-- The guard of `handleKeyPress`: `e.key === 'Enter' && !e.shiftKey`.
Only the Shift modifier is consulted. -/
def keyPressSubmits (e : KeyEvent) : Bool :=
  e.key == "Enter" && !e.shiftKey

/-- `handleKeyPress`: when the guard holds, `e.preventDefault()` and
`handleSend()` (no override) — the same submit step the send button's
`onClick={() => handleSend()}` performs; otherwise nothing. -/
def handleKeyPress (c : Conv) (e : KeyEvent) (now : Nat) : Conv × StepOut :=
  if keyPressSubmits e then convStep c (ConvEvent.submit now none) else (c, {})

/-- Whether the handler calls `e.preventDefault()`. -/
def keyPressPreventsDefault (e : KeyEvent) : Bool := keyPressSubmits e

/-- Browser default for an unprevented Enter in a textarea: a literal
newline is inserted into the pending input. -/
def textareaInsertsNewline (e : KeyEvent) : Bool :=
  e.key == "Enter" && !(keyPressPreventsDefault e)

/-- The explicit send control: `onClick={() => handleSend()}`. -/
def sendButtonClick (c : Conv) (now : Nat) : Conv × StepOut :=
  convStep c (ConvEvent.submit now none)

/-! ### Concrete states used by witnesses -/

/-- A ready component: non-blank pending input, not busy. -/
def conv0 : Conv :=
  { chat := { messages := [], input := "hello", isLoading := false,
              streamingMessage := none, actionType := Action.ask_question },
    inFlight := none,
    tw := none,
    sessionId := "s1" }

/-- A component whose pending input is all whitespace. -/
def convBlank : Conv :=
  { chat := { messages := [], input := "   ", isLoading := false,
              streamingMessage := none, actionType := Action.add_fact },
    inFlight := none, tw := none, sessionId := "s1" }

/-- The payload of `conv0`'s submission. -/
def payload0 : RequestPayload :=
  { message := "hello", action_type := Action.ask_question,
    history := [], session_id := "s1" }

/-- A component awaiting its `/chat` response. -/
def convInFlight : Conv :=
  { conv0 with
      chat := { conv0.chat with input := "", isLoading := true },
      inFlight := some payload0 }

/-- A typewriter interval whose text is fully revealed (`add_fact`). -/
def twDone : ActiveTypewriter :=
  ⟨"Ok".data, Action.add_fact, some ⟨1, 1⟩, 2,
   { id := 7, type := Role.assistant, content := "Ok", isStreaming := true }⟩

/-- A component at the finalize tick of an `add_fact` reveal. -/
def convTwDone : Conv :=
  { conv0 with
      chat := { conv0.chat with streamingMessage := some twDone.temp },
      tw := some twDone }

/-- The same component for an `ask_question` reveal. -/
def convTwAsk : Conv :=
  { convTwDone with
      tw := some { twDone with action := Action.ask_question, details := none } }

/-- Ctrl+Enter without Shift. -/
def ctrlEnter : KeyEvent :=
  { key := "Enter", shiftKey := false, ctrlKey := true,
    altKey := false, metaKey := false }

/-- Shift+Enter. -/
def shiftEnter : KeyEvent :=
  { key := "Enter", shiftKey := true, ctrlKey := false,
    altKey := false, metaKey := false }

/-- Enter with no modifier at all. -/
def plainEnter : KeyEvent :=
  { key := "Enter", shiftKey := false, ctrlKey := false,
    altKey := false, metaKey := false }

/-- The axios error data used by the C5 witness. -/
def errInfo0 : ErrorInfo := { responseDetail := some "boom", message := "Network Error" }

/-! ### Proof-level descriptions of a reveal in progress -/

/-- The draft message after `k` ticks of a reveal of `text` that started
from the draft `temp0`. -/
def twTempAt (temp0 : Message) (text : List Char) (k : Nat) : Message :=
  { temp0 with content := ⟨temp0.content.data ++ text.take k⟩ }

/-- The component state in mid-reveal, `k` characters in. -/
def twStateAt (c0 : Conv) (text : List Char) (action : Action)
    (details : Option Details) (temp0 : Message) (k : Nat) : Conv :=
  { c0 with
      chat := { c0.chat with streamingMessage := some (twTempAt temp0 text k) },
      tw := some ⟨text, action, details, k, twTempAt temp0 text k⟩ }

/-! ### Claim theorems -/

/-- C3: a submit with blank (all-whitespace or empty) input, or made while
the component is busy, is a silent no-op: the component state is unchanged,
no message is appended to the transcript, and no request is issued. -/
theorem submit_blank_or_busy_noop (c : Conv) (now : Nat) (ov : Option Action)
    (h : jsTrim c.chat.input = "" ∨ c.chat.isLoading = true) :
    convStep c (ConvEvent.submit now ov) = (c, {}) := by
  simp only [convStep]
  rcases h with h | h
  · rw [if_pos (Or.inl h)]
  · rw [if_pos (Or.inr h)]

/-- C3 witness: a concrete all-whitespace submission is a no-op. -/
theorem submit_blank_or_busy_noop_witness :
    (jsTrim convBlank.chat.input = "" ∨ convBlank.chat.isLoading = true)
    ∧ convStep convBlank (ConvEvent.submit 5 none) = (convBlank, {}) :=
  ⟨Or.inl (by decide),
   submit_blank_or_busy_noop convBlank 5 none (Or.inl (by decide))⟩

/-- C6: a failed graph fetch leaves the previously held snapshot unchanged
and only logs the error; a successful well-formed fetch replaces the
snapshot wholesale with the response, independently of (never merged with)
the previous snapshot. -/
theorem graph_fetch_replacement :
    (∀ (snap : GraphData) (m : String),
        fetchGraph snap (FetchResult.err m)
          = (snap, ["Error fetching graph: " ++ m]))
    ∧ (∀ (snap snap2 : GraphData) (ns : List GraphNode) (ls : List GraphLink),
        (fetchGraph snap (FetchResult.ok ⟨some ns, some ls⟩)).1 = ⟨ns, ls⟩
        ∧ (fetchGraph snap (FetchResult.ok ⟨some ns, some ls⟩)).1
            = (fetchGraph snap2 (FetchResult.ok ⟨some ns, some ls⟩)).1) :=
  ⟨fun _ _ => rfl, fun _ _ _ _ => ⟨rfl, rfl⟩⟩

/-- C8: the fill color is selected by `group` from the fixed six-entry
palette, with the `Entity` entry as fallback for every unrecognized group;
the halo color and width are determined solely by `isGlobal`, and the two
`isGlobal` states produce different halo encodings for every group. -/
theorem node_paint_palette_halo :
    (∀ b : Bool,
        (paintNode "Person" b).fill = "#ff6b6b"
        ∧ (paintNode "Project" b).fill = "#4ecdc4"
        ∧ (paintNode "Technology" b).fill = "#45b7d1"
        ∧ (paintNode "Company" b).fill = "#a29bfe"
        ∧ (paintNode "Location" b).fill = "#55efc4"
        ∧ (paintNode "Entity" b).fill = "#95a5a6")
    ∧ (∀ (g : String) (b : Bool), lookupColor g = none →
        (paintNode g b).fill = (paintNode "Entity" b).fill)
    ∧ (∀ (g g2 : String) (b : Bool),
        (paintNode g b).haloColor = (paintNode g2 b).haloColor
        ∧ (paintNode g b).haloWidth = (paintNode g2 b).haloWidth)
    ∧ (∀ g : String,
        (paintNode g true).haloColor ≠ (paintNode g false).haloColor
        ∧ (paintNode g true).haloWidth ≠ (paintNode g false).haloWidth) := by
  have hent : lookupColor "Entity" = some "#95a5a6" := by decide
  refine ⟨fun b => ⟨rfl, rfl, rfl, rfl, rfl, rfl⟩, ?_,
          fun g g2 b => ⟨rfl, rfl⟩,
          fun g => ⟨by simp [paintNode], by simp [paintNode]⟩⟩
  intro g b h
  simp [paintNode, h, hent]

/-- C8 witness: the unrecognized group "Robot" falls back to the Entity
palette entry. -/
theorem node_paint_palette_halo_witness :
    lookupColor "Robot" = none
    ∧ (paintNode "Robot" true).fill = (paintNode "Entity" true).fill :=
  ⟨by decide, node_paint_palette_halo.2.1 "Robot" true (by decide)⟩

/-- C9 counterexample: the revision at `src/client/src/KnowledgeGraph.jsx`
passes the fixed pixel dimensions 800×500 to `ForceGraph2D`, so for a
container measuring 1024×768 the simulation area does not equal the
available container space. -/
theorem viewport_fixed_dims_counterexample :
    kgWidthProp 1024 = 800 ∧ kgHeightProp 768 = 500
    ∧ kgWidthProp 1024 ≠ 1024 ∧ kgHeightProp 768 ≠ 768 := by
  exact ⟨rfl, rfl, by decide, by decide⟩

/-- C9 amended: in the revision kept at `src/unnamed/part_001` the viewport
is measured from the container (`getBoundingClientRect`) and re-measured by
a `ResizeObserver` callback on every container resize, so the dimensions
passed to the renderer always track the latest container size; the revision
at `src/client/src/KnowledgeGraph.jsx` instead passes fixed 800×500 pixel
dimensions. -/
theorem viewport_dimensions_amended :
    (∀ (rect0 : Nat × Nat) (rs : List (Nat × Nat)),
        dimensionsAfterResizes rect0 rs = rs.getLastD rect0)
    ∧ (∀ dims : Nat × Nat,
        kg2WidthProp dims = dims.1 ∧ kg2HeightProp dims = dims.2)
    ∧ (∀ w h : Nat, kgWidthProp w = 800 ∧ kgHeightProp h = 500) := by
  refine ⟨?_, fun _ => ⟨rfl, rfl⟩, fun _ _ => ⟨rfl, rfl⟩⟩
  intro rect0 rs
  induction rs generalizing rect0 with
  | nil => rfl
  | cons r rs ih =>
      rw [List.getLastD_cons]
      exact ih r

/-- C10 counterexample: Ctrl+Enter (a modifier-held Enter, Shift up) passes
`handleKeyPress`'s guard and performs the submit — from a ready state it
issues a request — and no newline is inserted, contradicting the claim that
Enter with any modifier held does not submit. -/
theorem keypress_modifier_counterexample :
    hasModifier ctrlEnter = true
    ∧ keyPressSubmits ctrlEnter = true
    ∧ handleKeyPress conv0 ctrlEnter 1 = sendButtonClick conv0 1
    ∧ (handleKeyPress conv0 ctrlEnter 1).2.requests = 1
    ∧ textareaInsertsNewline ctrlEnter = false := by
  refine ⟨rfl, rfl, rfl, by decide, rfl⟩

/-- C10 amended: pressing Enter is submitted or not according to the Shift
modifier alone — Enter with Shift up (regardless of Ctrl/Alt/Meta) performs
exactly the submit of the explicit send control and prevents the default
newline; Enter with Shift held does nothing and the browser default inserts
a literal newline into the pending input. -/
theorem keypress_amended (c : Conv) (now : Nat) (e : KeyEvent)
    (hk : e.key = "Enter") :
    (e.shiftKey = false →
        handleKeyPress c e now = sendButtonClick c now
        ∧ textareaInsertsNewline e = false)
    ∧ (e.shiftKey = true →
        handleKeyPress c e now = (c, {})
        ∧ textareaInsertsNewline e = true) := by
  constructor
  · intro hs
    have hguard : keyPressSubmits e = true := by
      simp [keyPressSubmits, hk, hs]
    constructor
    · simp [handleKeyPress, hguard, sendButtonClick]
    · simp [textareaInsertsNewline, keyPressPreventsDefault, hguard]
  · intro hs
    have hguard : keyPressSubmits e = false := by
      simp [keyPressSubmits, hs]
    constructor
    · simp [handleKeyPress, hguard]
    · simp [textareaInsertsNewline, keyPressPreventsDefault, hguard, hk]

/-- C5: when the awaited request fails, exactly one message is appended to
the transcript; it has `isError = true`, carries no `action` and no
`details`, its text embeds the server-reported detail when one is present
(the transport error message otherwise), no retry is issued, and `finally`
returns `isBusy` to false. -/
theorem failed_request_error_message
    (c : Conv) (p : RequestPayload) (err : ErrorInfo) (now : Nat)
    (h : c.inFlight = some p) :
    ((convStep c (ConvEvent.resolve (ChatResult.failure err) now)).1.chat.messages
        = c.chat.messages ++ [errorMessage now err])
    ∧ (errorMessage now err).isError = true
    ∧ (errorMessage now err).action = none
    ∧ (errorMessage now err).details = none
    ∧ (∀ d : String, err.responseDetail = some d → d ≠ "" →
        (errorMessage now err).content = "Error: " ++ d)
    ∧ (err.responseDetail = none →
        (errorMessage now err).content = "Error: " ++ err.message)
    ∧ (convStep c (ConvEvent.resolve (ChatResult.failure err) now)).1.chat.isLoading
        = false
    ∧ (convStep c (ConvEvent.resolve (ChatResult.failure err) now)).2.requests = 0 := by
  refine ⟨?_, rfl, rfl, rfl, ?_, ?_, ?_, ?_⟩
  · simp [convStep, h]
  · intro d hd hne
    simp [errorMessage, errorText, hd, hne]
  · intro hd
    simp [errorMessage, errorText, hd]
  · simp [convStep, h]
  · simp [convStep, h]

/-- C5 witness at a concrete failed request carrying a server detail. -/
theorem failed_request_error_message_witness :
    convInFlight.inFlight = some payload0
    ∧ ((convStep convInFlight
          (ConvEvent.resolve (ChatResult.failure errInfo0) 9)).1.chat.messages
        = convInFlight.chat.messages ++ [errorMessage 9 errInfo0])
    ∧ (errorMessage 9 errInfo0).isError = true
    ∧ (errorMessage 9 errInfo0).content = "Error: " ++ "boom"
    ∧ (convStep convInFlight
          (ConvEvent.resolve (ChatResult.failure errInfo0) 9)).1.chat.isLoading
        = false :=
  ⟨rfl,
   (failed_request_error_message convInFlight payload0 errInfo0 9 rfl).1,
   (failed_request_error_message convInFlight payload0 errInfo0 9 rfl).2.1,
   (failed_request_error_message convInFlight payload0 errInfo0 9 rfl).2.2.2.2.1
     "boom" rfl (by decide),
   (failed_request_error_message convInFlight payload0 errInfo0 9 rfl).2.2.2.2.2.2.1⟩

/-- C4: `onGraphUpdate` is called at the finalize tick exactly when the
revealed response's action is `add_fact` (an `ask_question` reveal notifies
nothing, and a notification only ever arises from an `add_fact` reveal);
the scheduled refresh-token increment does not execute before the fixed
500ms delay has elapsed — until then the renderer keeps consuming the
pre-mutation snapshot — and executes once it has. -/
theorem refresh_schedule_iff_add_fact :
    (∀ (c : Conv) (a : ActiveTypewriter), c.tw = some a →
        a.text.length ≤ a.index →
        (convStep c ConvEvent.tick).2.graphNotify
          = decide (a.action = Action.add_fact))
    ∧ (∀ (c : Conv) (e : ConvEvent), (convStep c e).2.graphNotify = true →
        ∃ a, c.tw = some a ∧ a.action = Action.add_fact)
    ∧ graphUpdateDelayMs = 500
    ∧ (∀ k0 s t, t < s + graphUpdateDelayMs → refreshKeyAt k0 s t = k0)
    ∧ (∀ k0 s t, s + graphUpdateDelayMs ≤ t → refreshKeyAt k0 s t = k0 + 1) := by
  refine ⟨?_, ?_, rfl, ?_, ?_⟩
  · intro c a ht hlen
    have hi : ¬ a.index < a.text.length := by omega
    simp [convStep, ht, hi]
  · intro c e hnotify
    cases e with
    | submit now ov =>
        by_cases hb : jsTrim c.chat.input = "" ∨ c.chat.isLoading = true
        · simp [convStep, hb] at hnotify
        · simp [convStep, hb] at hnotify
    | resolve r n =>
        rcases hf : c.inFlight with _ | p
        · simp [convStep, hf] at hnotify
        · cases r with
          | success a resp d => simp [convStep, hf] at hnotify
          | failure err => simp [convStep, hf] at hnotify
    | tick =>
        rcases ht : c.tw with _ | a
        · simp [convStep, ht] at hnotify
        · by_cases hi : a.index < a.text.length
          · simp [convStep, ht, hi] at hnotify
          · simp only [convStep, ht, hi] at hnotify
            refine ⟨a, rfl, ?_⟩
            simpa using hnotify
  · intro k0 s t hlt
    simp [refreshKeyAt, hlt]
  · intro k0 s t hge
    have : ¬ t < s + graphUpdateDelayMs := by omega
    simp [refreshKeyAt, this]

/-- C4 witness: a finished `add_fact` reveal notifies, a finished
`ask_question` reveal does not; the increment scheduled at t=100 has not
run at t=599 and has run at t=600. -/
theorem refresh_schedule_iff_add_fact_witness :
    convTwDone.tw = some twDone
    ∧ twDone.text.length ≤ twDone.index
    ∧ (convStep convTwDone ConvEvent.tick).2.graphNotify = true
    ∧ (convStep convTwAsk ConvEvent.tick).2.graphNotify = false
    ∧ refreshKeyAt 3 100 599 = 3
    ∧ refreshKeyAt 3 100 600 = 4 :=
  ⟨rfl, by decide,
   (refresh_schedule_iff_add_fact.1 convTwDone twDone rfl (by decide)).trans
     (by decide),
   (refresh_schedule_iff_add_fact.1 convTwAsk
     { twDone with action := Action.ask_question, details := none } rfl
     (by decide)).trans (by decide),
   refresh_schedule_iff_add_fact.2.2.2.1 3 100 599 (by decide),
   refresh_schedule_iff_add_fact.2.2.2.2 3 100 600 (by decide)⟩

/-- C7: the transcript is append-only — every event of the conversation
engine either leaves the message sequence unchanged or appends exactly one
message at its end, so a message already in the transcript is never removed
or edited. -/
theorem transcript_append_only (c : Conv) (e : ConvEvent) :
    ∃ tail, (convStep c e).1.chat.messages = c.chat.messages ++ tail
      ∧ tail.length ≤ 1 := by
  cases e with
  | submit now ov =>
      by_cases hb : jsTrim c.chat.input = "" ∨ c.chat.isLoading = true
      · exact ⟨[], by simp [convStep, hb], by simp⟩
      · exact ⟨[userMessage now c.chat.input], by simp [convStep, hb], by simp⟩
  | resolve r n =>
      rcases hf : c.inFlight with _ | p
      · exact ⟨[], by simp [convStep, hf], by simp⟩
      · cases r with
        | success a resp d => exact ⟨[], by simp [convStep, hf], by simp⟩
        | failure err => exact ⟨[errorMessage n err], by simp [convStep, hf], by simp⟩
  | tick =>
      rcases ht : c.tw with _ | a
      · exact ⟨[], by simp [convStep, ht], by simp⟩
      · by_cases hi : a.index < a.text.length
        · exact ⟨[], by simp [convStep, ht, hi], by simp⟩
        · exact ⟨[finalizeMessage a.temp a.action a.details],
            by simp [convStep, ht, hi], by simp⟩

/-- C1: a submit of non-blank text while not busy issues exactly one
request and sets `isBusy`; while busy a submit is rejected and ticks never
change `isBusy`, so the flag stays true until the response resolves, at
which point `finally` clears it regardless of outcome; a request is only
ever issued from a non-busy state, and busyness covers the in-flight
request, so at most one conversational request is in flight at a time. -/
theorem submit_serializes_requests
    (c : Conv) (now : Nat) (ov : Option Action)
    (hne : jsTrim c.chat.input ≠ "") (hnb : c.chat.isLoading = false) :
    ((convStep c (ConvEvent.submit now ov)).2.requests = 1
      ∧ (convStep c (ConvEvent.submit now ov)).1.chat.isLoading = true
      ∧ (convStep c (ConvEvent.submit now ov)).1.inFlight ≠ none)
    ∧ (∀ (d : Conv) (n : Nat) (o : Option Action), d.chat.isLoading = true →
        convStep d (ConvEvent.submit n o) = (d, {}))
    ∧ (∀ d : Conv,
        (convStep d ConvEvent.tick).1.chat.isLoading = d.chat.isLoading)
    ∧ (∀ (d : Conv) (r : ChatResult) (n : Nat), d.inFlight ≠ none →
        (convStep d (ConvEvent.resolve r n)).1.chat.isLoading = false
        ∧ (convStep d (ConvEvent.resolve r n)).1.inFlight = none)
    ∧ (∀ (d : Conv) (e : ConvEvent), (convStep d e).2.requests ≠ 0 →
        d.chat.isLoading = false ∧ (convStep d e).2.requests = 1)
    ∧ (∀ (d : Conv) (e : ConvEvent),
        (d.inFlight ≠ none → d.chat.isLoading = true) →
        (convStep d e).1.inFlight ≠ none →
        (convStep d e).1.chat.isLoading = true) := by
  have hcond : ¬ (jsTrim c.chat.input = "" ∨ c.chat.isLoading = true) := by
    rintro (h | h)
    · exact hne h
    · rw [hnb] at h
      exact Bool.noConfusion h
  refine ⟨?_, ?_, ?_, ?_, ?_, ?_⟩
  · refine ⟨?_, ?_, ?_⟩ <;> simp [convStep, hcond]
  · intro d n o hl
    simp [convStep, hl]
  · intro d
    rcases ht : d.tw with _ | a
    · simp [convStep, ht]
    · by_cases hi : a.index < a.text.length
      · simp [convStep, ht, hi]
      · simp [convStep, ht, hi]
  · intro d r n hf
    rcases hf2 : d.inFlight with _ | p
    · exact absurd hf2 hf
    · cases r with
      | success a resp dd => exact ⟨by simp [convStep, hf2], by simp [convStep, hf2]⟩
      | failure err => exact ⟨by simp [convStep, hf2], by simp [convStep, hf2]⟩
  · intro d e hr
    cases e with
    | submit n o =>
        by_cases hb : jsTrim d.chat.input = "" ∨ d.chat.isLoading = true
        · simp [convStep, hb] at hr
        · have hl : d.chat.isLoading = false := by
            cases hl : d.chat.isLoading
            · rfl
            · exact absurd (Or.inr hl) hb
          exact ⟨hl, by simp [convStep, hb]⟩
    | resolve r n =>
        rcases hf2 : d.inFlight with _ | p
        · simp [convStep, hf2] at hr
        · cases r with
          | success a resp dd => simp [convStep, hf2] at hr
          | failure err => simp [convStep, hf2] at hr
    | tick =>
        rcases ht : d.tw with _ | a
        · simp [convStep, ht] at hr
        · by_cases hi : a.index < a.text.length
          · simp [convStep, ht, hi] at hr
          · simp [convStep, ht, hi] at hr
  · intro d e hinv hf'
    cases e with
    | submit n o =>
        by_cases hb : jsTrim d.chat.input = "" ∨ d.chat.isLoading = true
        · simp [convStep, hb] at hf' ⊢
          exact hinv hf'
        · simp [convStep, hb]
    | resolve r n =>
        rcases hf2 : d.inFlight with _ | p
        · simp [convStep, hf2] at hf'
        · cases r with
          | success a resp dd => simp [convStep, hf2] at hf'
          | failure err => simp [convStep, hf2] at hf'
    | tick =>
        rcases ht : d.tw with _ | a
        · simp [convStep, ht] at hf' ⊢
          exact hinv hf'
        · by_cases hi : a.index < a.text.length
          · simp [convStep, ht, hi] at hf' ⊢
            exact hinv hf'
          · simp [convStep, ht, hi] at hf' ⊢
            exact hinv hf'

/-- C1 witness: a concrete ready component's submission issues one request
and raises the busy flag. -/
theorem submit_serializes_requests_witness :
    jsTrim conv0.chat.input ≠ "" ∧ conv0.chat.isLoading = false
    ∧ (convStep conv0 (ConvEvent.submit 1 none)).2.requests = 1
    ∧ (convStep conv0 (ConvEvent.submit 1 none)).1.chat.isLoading = true :=
  ⟨by decide, rfl,
   (submit_serializes_requests conv0 1 none (by decide) rfl).1.1,
   (submit_serializes_requests conv0 1 none (by decide) rfl).1.2.1⟩

/-- C10 amended witness: plain Enter submits like the send control;
Shift+Enter does nothing and lets the newline through. -/
theorem keypress_amended_witness :
    plainEnter.key = "Enter" ∧ plainEnter.shiftKey = false
    ∧ handleKeyPress conv0 plainEnter 1 = sendButtonClick conv0 1
    ∧ shiftEnter.key = "Enter" ∧ shiftEnter.shiftKey = true
    ∧ handleKeyPress conv0 shiftEnter 1 = (conv0, {})
    ∧ textareaInsertsNewline shiftEnter = true :=
  ⟨rfl, rfl,
   ((keypress_amended conv0 1 plainEnter rfl).1 rfl).1,
   rfl, rfl,
   ((keypress_amended conv0 1 shiftEnter rfl).2 rfl).1,
   ((keypress_amended conv0 1 shiftEnter rfl).2 rfl).2⟩

/-- The draft after zero ticks is the starting draft. -/
theorem twTempAt_zero (temp0 : Message) (text : List Char) :
    twTempAt temp0 text 0 = temp0 := by
  simp [twTempAt]

/-- One revealed character extends the draft by `text[k]`. -/
theorem twTempAt_succ (temp0 : Message) (text : List Char) (k : Nat)
    (h : k < text.length) :
    { twTempAt temp0 text k with
        content := (twTempAt temp0 text k).content.push (text.get ⟨k, h⟩) }
      = twTempAt temp0 text (k + 1) := by
  have htake : text.take (k + 1) = text.take k ++ [text.get ⟨k, h⟩] := by
    rw [List.take_succ]
    simp [List.getElem?_eq_getElem h, List.get_eq_getElem]
  have hcontent : String.push ⟨temp0.content.data ++ text.take k⟩ (text.get ⟨k, h⟩)
      = ⟨temp0.content.data ++ text.take (k + 1)⟩ := by
    rw [htake]
    simp [String.push]
  show ({ temp0 with
            content := String.push ⟨temp0.content.data ++ text.take k⟩
              (text.get ⟨k, h⟩) } : Message)
      = { temp0 with content := ⟨temp0.content.data ++ text.take (k + 1)⟩ }
  rw [hcontent]

/-- A mid-reveal tick advances the reveal by exactly one character. -/
theorem convStep_twStateAt_mid (c0 : Conv) (text : List Char) (action : Action)
    (details : Option Details) (temp0 : Message) (k : Nat) (h : k < text.length) :
    convStep (twStateAt c0 text action details temp0 k) ConvEvent.tick
      = (twStateAt c0 text action details temp0 (k + 1), {}) := by
  have hpush := twTempAt_succ temp0 text k h
  simp only [convStep, twStateAt]
  rw [dif_pos h]
  simp only at hpush
  rw [hpush]

/-- After `k ≤ N` ticks the reveal is exactly `k` characters in. -/
theorem convTicks_twStateAt (c0 : Conv) (text : List Char) (action : Action)
    (details : Option Details) (temp0 : Message) :
    ∀ k, k ≤ text.length →
      convTicks (twStateAt c0 text action details temp0 0) k
        = twStateAt c0 text action details temp0 k := by
  intro k
  induction k with
  | zero => intro _; rfl
  | succ k ih =>
      intro hk
      have hlt : k < text.length := hk
      simp only [convTicks, ih (Nat.le_of_lt hlt)]
      rw [convStep_twStateAt_mid c0 text action details temp0 k hlt]

/-- The tick after the last character finalizes the draft into the
transcript and clears the interval. -/
theorem convStep_twStateAt_done (c0 : Conv) (text : List Char) (action : Action)
    (details : Option Details) (temp0 : Message) :
    convStep (twStateAt c0 text action details temp0 text.length) ConvEvent.tick
      = ({ c0 with
             chat := { c0.chat with
                         messages := c0.chat.messages ++
                           [finalizeMessage (twTempAt temp0 text text.length)
                              action details],
                         streamingMessage := none },
             tw := none },
         { graphNotify := decide (action = Action.add_fact) }) := by
  have hi : ¬ text.length < text.length := lt_irrefl _
  simp only [convStep, twStateAt]
  rw [dif_neg hi]

/-- C2: on the fixed 20ms timer, the reveal of a response of length N shows
exactly its first k characters after k ticks — so it completes in exactly
N ticks, losslessly and order-preservingly, and at no earlier tick — and
the following tick finalizes the draft into the transcript as a
non-streaming message whose text equals the response verbatim, carrying the
response's `action` and `details`. -/
theorem typewriter_reveal_lossless
    (c : Conv) (p : RequestPayload) (action : Action) (response : String)
    (details : Option Details) (now : Nat)
    (h : c.inFlight = some p) :
    typewriterIntervalMs = 20
    ∧ (∀ k, k ≤ response.length →
        (convTicks ((convStep c (ConvEvent.resolve
              (ChatResult.success action response details) now)).1)
            k).chat.streamingMessage
          = some { id := now, type := Role.assistant,
                   content := ⟨response.data.take k⟩, isStreaming := true })
    ∧ ((convTicks ((convStep c (ConvEvent.resolve
              (ChatResult.success action response details) now)).1)
            response.length).chat.streamingMessage
          = some { id := now, type := Role.assistant,
                   content := response, isStreaming := true })
    ∧ (∀ k, k < response.length →
        (convTicks ((convStep c (ConvEvent.resolve
              (ChatResult.success action response details) now)).1)
            k).chat.streamingMessage
          ≠ some { id := now, type := Role.assistant,
                   content := response, isStreaming := true })
    ∧ ((convTicks ((convStep c (ConvEvent.resolve
              (ChatResult.success action response details) now)).1)
            (response.length + 1)).chat.messages
        = c.chat.messages ++
            [{ id := now, type := Role.assistant, content := response,
               isStreaming := false, action := some action, details := details }])
    ∧ ((convTicks ((convStep c (ConvEvent.resolve
              (ChatResult.success action response details) now)).1)
            (response.length + 1)).chat.streamingMessage = none) := by
  have hc1 : (convStep c (ConvEvent.resolve
        (ChatResult.success action response details) now)).1
      = twStateAt { c with chat := { c.chat with isLoading := false },
                           inFlight := none }
          response.data action details (tempMessage now) 0 := by
    simp [convStep, h, twStateAt, twTempAt_zero]
  have hlen : response.length = response.data.length := rfl
  have hmsg : ∀ k, k ≤ response.length →
      (convTicks ((convStep c (ConvEvent.resolve
            (ChatResult.success action response details) now)).1)
          k).chat.streamingMessage
        = some { id := now, type := Role.assistant,
                 content := ⟨response.data.take k⟩, isStreaming := true } := by
    intro k hk
    rw [hc1, convTicks_twStateAt _ _ _ _ _ k hk]
    simp [twStateAt, twTempAt, tempMessage]
  have htake : response.data.take response.length = response.data := by
    rw [hlen]
    exact List.take_length response.data
  refine ⟨rfl, hmsg, ?_, ?_, ?_, ?_⟩
  · have := hmsg response.length le_rfl
    rw [this]
    simp [htake]
  · intro k hklt heq
    rw [hmsg k (Nat.le_of_lt hklt)] at heq
    simp only [Option.some.injEq, Message.mk.injEq] at heq
    have hdata : response.data.take k = response.data :=
      congrArg String.data heq.2.2.1
    have : (response.data.take k).length = response.data.length := by rw [hdata]
    rw [List.length_take] at this
    omega
  · rw [hc1]
    show (convStep (convTicks (twStateAt _ _ _ _ _ 0) response.length)
        ConvEvent.tick).1.chat.messages = _
    rw [convTicks_twStateAt _ _ _ _ _ response.length (le_of_eq hlen),
        hlen, convStep_twStateAt_done]
    simp [finalizeMessage, twTempAt, tempMessage, ← hlen, htake]
  · rw [hc1]
    show (convStep (convTicks (twStateAt _ _ _ _ _ 0) response.length)
        ConvEvent.tick).1.chat.streamingMessage = none
    rw [convTicks_twStateAt _ _ _ _ _ response.length (le_of_eq hlen),
        hlen, convStep_twStateAt_done]

/-- C2 witness: revealing the concrete response "Hi" (length 2) shows the
full text after exactly 2 ticks, and the third tick appends the finalized
message carrying the action and details. -/
theorem typewriter_reveal_lossless_witness :
    convInFlight.inFlight = some payload0
    ∧ (convTicks ((convStep convInFlight (ConvEvent.resolve
          (ChatResult.success Action.add_fact "Hi" (some ⟨1, 0⟩)) 9)).1)
        "Hi".length).chat.streamingMessage
      = some { id := 9, type := Role.assistant, content := "Hi",
               isStreaming := true }
    ∧ (convTicks ((convStep convInFlight (ConvEvent.resolve
          (ChatResult.success Action.add_fact "Hi" (some ⟨1, 0⟩)) 9)).1)
        ("Hi".length + 1)).chat.messages
      = convInFlight.chat.messages ++
          [{ id := 9, type := Role.assistant, content := "Hi",
             isStreaming := false, action := some Action.add_fact,
             details := some ⟨1, 0⟩ }] :=
  ⟨rfl,
   (typewriter_reveal_lossless convInFlight payload0 Action.add_fact "Hi"
      (some ⟨1, 0⟩) 9 rfl).2.2.1,
   (typewriter_reveal_lossless convInFlight payload0 Action.add_fact "Hi"
      (some ⟨1, 0⟩) 9 rfl).2.2.2.2.1⟩

end AiMemory
